import Mathlib

/-!
Shallow embedding of the css-resolver pipeline (src/test_css_resolver/test_resolver.py).

Strings are modelled as Lean `String` (lists of `Char`); the Python regular
expressions used by the source are hand-compiled into deterministic scanners
that reproduce the leftmost, greedy/lazy backtracking behaviour of `re` on the
concrete patterns appearing in the source.  HTTP fetching, the filesystem and
the module-global configuration are modelled as explicit oracle parameters.
Each resolver additionally returns the list of URLs it passed to
`requests.get`, so that claims about which URLs are fetched are statable;
this trace component is pure instrumentation and does not influence the
returned CSS text.  Logging is a no-op for the returned text, but the source
consults `log_level` inside control flow, so the log configuration is carried
as an explicit `Config` value.  Python whitespace (`\s`, `str.strip`) is
modelled over its ASCII part.
-/

set_option maxRecDepth 8000

/-- Python `\s` on the ASCII range: space, tab, newline, CR, vertical tab, form feed. -/
def pySpace (c : Char) : Bool :=
  c == ' ' || c == Char.ofNat 9 || c == Char.ofNat 10 || c == Char.ofNat 13 ||
  c == Char.ofNat 11 || c == Char.ofNat 12

/-- A quote character, the character class `['"]` of the source's patterns. -/
def isQuoteChar (c : Char) : Bool := c == '"' || c == Char.ofNat 39

/-- Python `str.startswith`. -/
def pyStartsWith (s p : String) : Bool := p.data.isPrefixOf s.data

/-- Python `in` on strings: substring containment. -/
def containsSub : List Char → List Char → Bool
  | [], pat => pat.isEmpty
  | c :: rest, pat => pat.isPrefixOf (c :: rest) || containsSub rest pat

/-- Python `str.replace` with an empty pattern inserts the replacement at
every character boundary. -/
def pyInterleave (rep : List Char) : List Char → List Char
  | [] => rep
  | c :: rest => rep ++ c :: pyInterleave rep rest

/-- Python `str.replace` with a non-empty pattern: replace every
non-overlapping occurrence, scanning left to right.  The fuel is the length of
the scanned list; every step consumes at least one character. -/
def pyReplaceL : Nat → List Char → List Char → List Char → List Char
  | 0, _, _, l => l
  | _ + 1, _, _, [] => []
  | fuel + 1, pat, rep, c :: rest =>
    if pat.isPrefixOf (c :: rest) then
      rep ++ pyReplaceL fuel pat rep ((c :: rest).drop pat.length)
    else
      c :: pyReplaceL fuel pat rep rest

/-- Python `str.replace` (all occurrences), as used by the asset resolver. -/
def pyReplace (s pat rep : String) : String :=
  if pat.data = [] then String.mk (pyInterleave rep.data s.data)
  else String.mk (pyReplaceL s.data.length pat.data rep.data s.data)

/-- Find the first `*/` in the list; return what follows it.  This is where
the comment regex `/\*[^*]*\*+(?:[^*/][^*]*\*+)*/` ends a match: that pattern
matches from a `/*` to the first subsequent `*/`, inclusive. -/
def findClose : List Char → Option (List Char)
  | [] => none
  | [_] => none
  | c :: d :: rest => if c = '*' ∧ d = '/' then some rest else findClose (d :: rest)

/-- `re.sub(r'/\*[^*]*\*+(?:[^*/][^*]*\*+)*/', '', css)`: delete every
comment, scanning left to right; an unterminated `/*` is left in place.
Fuel is the input length (each step consumes at least one character). -/
def removeComments : Nat → List Char → List Char
  | 0, l => l
  | _ + 1, [] => []
  | _ + 1, [c] => [c]
  | fuel + 1, c :: d :: rest =>
    if c = '/' ∧ d = '*' then
      match findClose rest with
      | some r => removeComments fuel r
      | none => c :: removeComments fuel (d :: rest)
    else c :: removeComments fuel (d :: rest)

/-- `re.sub(r'\s+', ' ', css)`: collapse every maximal whitespace run into a
single space.  The flag records whether the previous character was part of a
whitespace run whose single space has already been emitted. -/
def collapseAux : Bool → List Char → List Char
  | _, [] => []
  | b, c :: rest =>
    if pySpace c then
      if b then collapseAux true rest else ' ' :: collapseAux true rest
    else c :: collapseAux false rest

/-- Python `str.rstrip` (whitespace): drop the trailing whitespace run. -/
def pyStripRight : List Char → List Char
  | [] => []
  | c :: rest =>
    match pyStripRight rest with
    | [] => if pySpace c then [] else [c]
    | r => c :: r

/-- Python `str.strip` (whitespace). -/
def pyStrip (l : List Char) : List Char := pyStripRight (l.dropWhile pySpace)

/-- `test_minify_css`: strip comments, collapse whitespace, trim. -/
def test_minify_css (css : String) : String :=
  String.mk (pyStrip (collapseAux false (removeComments css.data.length css.data)))

/-!
The import-extractor regex `@import\s+(url\()?['"]?(.*?)['"]?\)?;`, compiled
by hand.  The trailing part `['"]?\)?;` is deterministic (the greedy optional
elements are decided by the next character), the lazy group `(.*?)` grows one
character at a time (never across a newline, since `.` excludes `\n`), and
`\s+` is greedy with backtracking, tried from the maximal run downwards.
-/

/-- Match the terminator `['"]?\)?;`; return the rest of the input. -/
def importTerm : List Char → Option (List Char)
  | [] => none
  | c :: rest =>
    if isQuoteChar c then
      match rest with
      | ')' :: ';' :: r => some r
      | ';' :: r => some r
      | _ => none
    else if c = ')' then
      match rest with
      | ';' :: r => some r
      | _ => none
    else if c = ';' then some rest
    else none

/-- The lazy group `(.*?)` followed by the terminator: the shortest prefix
(not containing a newline) after which the terminator matches.  Returns the
captured group and the rest of the input after the terminator. -/
def importContent : List Char → Option (List Char × List Char)
  | [] => none
  | c :: rest =>
    match importTerm (c :: rest) with
    | some r => some ([], r)
    | none =>
      if c = Char.ofNat 10 then none
      else
        match importContent rest with
        | some (cs, r) => some (c :: cs, r)
        | none => none

/-- The optional opening quote `['"]?` (greedy: tried first) before the lazy
group. -/
def importQuoteContent : List Char → Option (List Char × List Char)
  | [] => none
  | c :: rest =>
    if isQuoteChar c then
      match importContent rest with
      | some r => some r
      | none => importContent (c :: rest)
    else importContent (c :: rest)

/-- The optional `(url\()?` (greedy: tried first) before the quote. -/
def importAfterWs (l : List Char) : Option (List Char × List Char) :=
  match (if "url(".data.isPrefixOf l then importQuoteContent (l.drop 4) else none) with
  | some r => some r
  | none => importQuoteContent l

/-- Greedy `\s+` with backtracking: try consuming k whitespace characters for
k from the maximal run length down to 1. -/
def tryWsImport : Nat → List Char → Option (List Char × List Char)
  | 0, _ => none
  | k + 1, l =>
    match importAfterWs (l.drop (k + 1)) with
    | some r => some r
    | none => tryWsImport k l

/-- Try to match the whole import pattern at the head of the list; on success
return the captured URL and the rest of the input after the match. -/
def matchImportAt (l : List Char) : Option (List Char × List Char) :=
  if "@import".data.isPrefixOf l then
    tryWsImport ((l.drop 7).takeWhile pySpace).length (l.drop 7)
  else none

/-- `findall` scan: leftmost non-overlapping matches.  Fuel is the input
length (a match consumes at least nine characters; a failure advances one). -/
def importScan : Nat → List Char → List (List Char)
  | 0, _ => []
  | _ + 1, [] => []
  | fuel + 1, c :: rest =>
    match matchImportAt (c :: rest) with
    | some (url, after) => url :: importScan fuel after
    | none => importScan fuel rest

/-- `test_import_extractor`: the second capture group of every match of
`@import\s+(url\()?['"]?(.*?)['"]?\)?;`, in order. -/
def test_import_extractor (css : String) : List String :=
  (importScan css.data.length css.data).map (fun l => String.mk l)

/-!
The asset-extractor regex `url\(['"]?(.*?)['"]?\)`, compiled the same way.
-/

/-- Match the terminator `['"]?\)`; return the rest of the input. -/
def assetTerm : List Char → Option (List Char)
  | [] => none
  | c :: rest =>
    if isQuoteChar c then
      match rest with
      | ')' :: r => some r
      | _ => none
    else if c = ')' then some rest
    else none

/-- The lazy group for the asset pattern. -/
def assetContent : List Char → Option (List Char × List Char)
  | [] => none
  | c :: rest =>
    match assetTerm (c :: rest) with
    | some r => some ([], r)
    | none =>
      if c = Char.ofNat 10 then none
      else
        match assetContent rest with
        | some (cs, r) => some (c :: cs, r)
        | none => none

/-- The optional opening quote for the asset pattern. -/
def assetQuoteContent : List Char → Option (List Char × List Char)
  | [] => none
  | c :: rest =>
    if isQuoteChar c then
      match assetContent rest with
      | some r => some r
      | none => assetContent (c :: rest)
    else assetContent (c :: rest)

/-- Try to match `url\(['"]?(.*?)['"]?\)` at the head of the list. -/
def matchAssetAt (l : List Char) : Option (List Char × List Char) :=
  if "url(".data.isPrefixOf l then assetQuoteContent (l.drop 4) else none

/-- `findall` scan for the asset pattern. -/
def assetScan : Nat → List Char → List (List Char)
  | 0, _ => []
  | _ + 1, [] => []
  | fuel + 1, c :: rest =>
    match matchAssetAt (c :: rest) with
    | some (url, after) => url :: assetScan fuel after
    | none => assetScan fuel rest

/-- `test_asset_extractor`: the capture group of every match of
`url\(['"]?(.*?)['"]?\)`, in order.  (The source also emits a log line, which
does not affect the returned list.) -/
def test_asset_extractor (css : String) : List String :=
  (assetScan css.data.length css.data).map (fun l => String.mk l)

/-!
`base64.b64encode` over byte lists (bytes as naturals, reduced mod 256).
-/

/-- The standard base64 alphabet. -/
def b64Alphabet : List Char :=
  "ABCDEFGHIJKLMNOPQRSTUVWXYZabcdefghijklmnopqrstuvwxyz0123456789+/".data

/-- The base64 digit for a 6-bit value. -/
def b64Char (n : Nat) : Char := b64Alphabet.getD n 'A'

/-- `base64.b64encode` (with `=` padding) of a byte sequence. -/
def b64encodeBytes : List Nat → List Char
  | [] => []
  | [a] =>
    let a' := a % 256
    [b64Char (a' / 4), b64Char (a' % 4 * 16), '=', '=']
  | [a, b] =>
    let a' := a % 256
    let b' := b % 256
    [b64Char (a' / 4), b64Char (a' % 4 * 16 + b' / 16), b64Char (b' % 16 * 4), '=']
  | a :: b :: c :: rest =>
    let a' := a % 256
    let b' := b % 256
    let c' := c % 256
    b64Char (a' / 4) :: b64Char (a' % 4 * 16 + b' / 16) ::
      b64Char (b' % 16 * 4 + c' / 64) :: b64Char (c' % 64) :: b64encodeBytes rest

/-!
The replacement-template processing that Python's `re.sub` applies to its
replacement string (CPython `re._parser.parse_template`).  The import
resolver passes the fetched, recursively resolved stylesheet text as the
replacement, so its backslash sequences are interpreted: known letter escapes
become control characters, `\` + other ASCII letter raises `re.error`, group
references (the import pattern has no capturing group) raise `re.error`,
octal escapes become characters, `\` + non-alphanumeric is kept verbatim, and
a trailing lone backslash raises.  `none` models a raised `re.error` (which
the resolver's `except` block swallows, leaving the document unchanged).
-/

/-- Prepend a character under `Option`. -/
def withRest (c : Char) : Option (List Char) → Option (List Char)
  | some l => some (c :: l)
  | none => none

/-- An octal digit. -/
def isOctChar (c : Char) : Bool := '0' ≤ c && c ≤ '7'

/-- Value of a decimal/octal digit. -/
def digitVal (c : Char) : Nat := c.toNat - 48

/-- CPython's `parse_template` on a replacement string, for a pattern with no
capturing groups (as in the import resolver's substitution pattern).  Fuel is
the input length; every step consumes at least one character. -/
def expandTemplate : Nat → List Char → Option (List Char)
  | _, [] => some []
  | 0, _ :: _ => none
  | fuel + 1, c :: rest =>
    if c = Char.ofNat 92 then
      match rest with
      | [] => none
      | d :: r =>
        if d = Char.ofNat 92 then withRest (Char.ofNat 92) (expandTemplate fuel r)
        else if d = 'a' then withRest (Char.ofNat 7) (expandTemplate fuel r)
        else if d = 'b' then withRest (Char.ofNat 8) (expandTemplate fuel r)
        else if d = 'f' then withRest (Char.ofNat 12) (expandTemplate fuel r)
        else if d = 'n' then withRest (Char.ofNat 10) (expandTemplate fuel r)
        else if d = 'r' then withRest (Char.ofNat 13) (expandTemplate fuel r)
        else if d = 't' then withRest (Char.ofNat 9) (expandTemplate fuel r)
        else if d = 'v' then withRest (Char.ofNat 11) (expandTemplate fuel r)
        else if d = '0' then
          match r with
          | e1 :: e2 :: r2 =>
            if isOctChar e1 && isOctChar e2 then
              withRest (Char.ofNat (digitVal e1 * 8 + digitVal e2)) (expandTemplate fuel r2)
            else if isOctChar e1 then
              withRest (Char.ofNat (digitVal e1)) (expandTemplate fuel (e2 :: r2))
            else withRest (Char.ofNat 0) (expandTemplate fuel r)
          | [e1] =>
            if isOctChar e1 then withRest (Char.ofNat (digitVal e1)) (some [])
            else withRest (Char.ofNat 0) (expandTemplate fuel [e1])
          | [] => some [Char.ofNat 0]
        else if d.isDigit then
          match r with
          | e1 :: e2 :: r2 =>
            if isOctChar d && isOctChar e1 && isOctChar e2 then
              let v := digitVal d * 64 + digitVal e1 * 8 + digitVal e2
              if v ≤ 255 then withRest (Char.ofNat v) (expandTemplate fuel r2) else none
            else none
          | _ => none
        else if d.isAlpha then none
        else withRest (Char.ofNat 92) (withRest d (expandTemplate fuel r))
    else withRest c (expandTemplate fuel rest)

/-!
The import resolver's substitution pattern
`@import\s+(?:url\()?['"]?{re.escape(url)}['"]?\)?;`, compiled the same way
as the extractor's pattern, with the escaped URL as a literal.
-/

/-- The literal URL followed by the terminator `['"]?\)?;`. -/
def litTerm (url l : List Char) : Option (List Char) :=
  if url.isPrefixOf l then importTerm (l.drop url.length) else none

/-- The optional quote (greedy) before the literal URL. -/
def subQuoteLit (url : List Char) : List Char → Option (List Char)
  | [] => litTerm url []
  | c :: rest =>
    if isQuoteChar c then
      match litTerm url rest with
      | some r => some r
      | none => litTerm url (c :: rest)
    else litTerm url (c :: rest)

/-- The optional `(?:url\()?` (greedy) before the quote. -/
def subAfterWs (url l : List Char) : Option (List Char) :=
  match (if "url(".data.isPrefixOf l then subQuoteLit url (l.drop 4) else none) with
  | some r => some r
  | none => subQuoteLit url l

/-- Greedy `\s+` with backtracking for the substitution pattern. -/
def tryWsSub (url : List Char) : Nat → List Char → Option (List Char)
  | 0, _ => none
  | k + 1, l =>
    match subAfterWs url (l.drop (k + 1)) with
    | some r => some r
    | none => tryWsSub url k l

/-- Try to match the substitution pattern at the head of the list; on success
return the rest of the input after the match. -/
def matchSubAt (url l : List Char) : Option (List Char) :=
  if "@import".data.isPrefixOf l then
    tryWsSub url ((l.drop 7).takeWhile pySpace).length (l.drop 7)
  else none

/-- `re.sub` scan: replace every leftmost non-overlapping match of the
substitution pattern by the (already template-expanded) replacement. -/
def subScan (url rep : List Char) : Nat → List Char → List Char
  | 0, l => l
  | _ + 1, [] => []
  | fuel + 1, c :: rest =>
    match matchSubAt url (c :: rest) with
    | some after => rep ++ subScan url rep fuel after
    | none => c :: subScan url rep fuel rest

/-- The `re.sub` call of the import resolver, after template expansion. -/
def pySubImport (url rep css : String) : String :=
  String.mk (subScan url.data rep.data css.data.length css.data)

/-!
Configuration and effect oracles.
-/

/-- The module-global log configuration (`log_method`, `log_level`).
`log_method` only routes log output and never influences the produced text or
the issued requests; `log_level` is consulted inside the resolvers' control
flow and therefore matters. -/
structure Config where
  logMethod : Nat
  logLevel : Nat

/-- The outcome of `requests.get`: a response (status code, `response.text`,
`response.content` bytes, the optional `content-type` header) or a raised
exception. -/
inductive FetchResult where
  | ok (status : Nat) (text : String) (content : List Nat) (contentType : Option String)
  | exn (msg : String)
deriving DecidableEq

/-- The HTTP oracle. -/
def Fetch : Type := String → FetchResult

/-- `log_level in [1, 2]`. -/
def levelOn (cfg : Config) : Bool := cfg.logLevel == 1 || cfg.logLevel == 2

/-- The `content-type` part of the produced data URI: Python's f-string
renders a missing header (`None`) as the text `None`. -/
def ctString : Option String → String
  | some s => s
  | none => "None"

/-- The data URI built by the asset resolver on a 200 response. -/
def dataUriOf (ct : Option String) (content : List Nat) : String :=
  "data:" ++ ctString ct ++ ";base64," ++ String.mk (b64encodeBytes content)

/-- One iteration of the import resolver's loop, parameterised by the
recursive call to `test_resolve_css` (`recur`).  Mirrors the source: the
root-relative skip is guarded by `url.startswith('/') and log_level in
[1, 2]`; on a 200 response the fetched text is recursively resolved and
substituted via `re.sub` (whose template processing may raise, caught by the
`except` block); any other status or an exception leaves the text unchanged.
The second component is the trace of URLs passed to `requests.get`. -/
def importStepG (f : Fetch) (cfg : Config) (recur : String → String × List String)
    (css url : String) : String × List String :=
  if pyStartsWith url "/" && levelOn cfg then (css, [])
  else
    match f url with
    | FetchResult.ok 200 text _ _ =>
      let r := recur text
      match expandTemplate r.1.data.length r.1.data with
      | some rep => (pySubImport url (String.mk rep) css, url :: r.2)
      | none => (css, url :: r.2)
    | FetchResult.ok _ _ _ _ => (css, [url])
    | FetchResult.exn _ => (css, [url])

/-- The import resolver's loop over its URL list. -/
def importResolverG (f : Fetch) (cfg : Config) (recur : String → String × List String) :
    List String → String → String × List String
  | [], css => (css, [])
  | u :: rest, css =>
    let r1 := importStepG f cfg recur css u
    let r2 := importResolverG f cfg recur rest r1.1
    (r2.1, r1.2 ++ r2.2)

/-- One iteration of the asset resolver's loop.  Mirrors the source: skip when
`'data:' in url` (substring test); skip when `url.startswith('/') and
log_level in [1, 2]`; on a 200 response replace every occurrence of the URL by
the data URI; otherwise leave the text unchanged. -/
def assetStep (f : Fetch) (cfg : Config) (css url : String) : String × List String :=
  if containsSub url.data "data:".data then (css, [])
  else if pyStartsWith url "/" && levelOn cfg then (css, [])
  else
    match f url with
    | FetchResult.ok 200 _ content ct => (pyReplace css url (dataUriOf ct content), [url])
    | FetchResult.ok _ _ _ _ => (css, [url])
    | FetchResult.exn _ => (css, [url])

/-- `test_asset_resolver`. -/
def test_asset_resolver (f : Fetch) (cfg : Config) :
    List String → String → String × List String
  | [], css => (css, [])
  | u :: rest, css =>
    let r1 := assetStep f cfg css u
    let r2 := test_asset_resolver f cfg rest r1.1
    (r2.1, r1.2 ++ r2.2)

/-- `test_resolve_css`: import extraction, import resolution, asset
extraction, asset resolution.  The fuel bounds the (unguarded, in the source
unbounded) recursion depth of nested import resolution; all theorems state
their fuel explicitly. -/
def test_resolve_css (f : Fetch) (cfg : Config) : Nat → String → String × List String
  | 0, css => (css, [])
  | fuel + 1, css =>
    let r1 := importResolverG f cfg (test_resolve_css f cfg fuel) (test_import_extractor css) css
    let r2 := test_asset_resolver f cfg (test_asset_extractor r1.1) r1.1
    (r2.1, r1.2 ++ r2.2)

/-- `test_import_resolver`, with the recursive call resolving at the given
fuel. -/
def test_import_resolver (f : Fetch) (cfg : Config) (fuel : Nat)
    (urls : List String) (css : String) : String × List String :=
  importResolverG f cfg (test_resolve_css f cfg fuel) urls css

/-- A fetch outcome the resolvers treat as a failure: a non-200 status or a
raised exception. -/
def fetchFails (f : Fetch) (url : String) : Bool :=
  match f url with
  | FetchResult.ok s _ _ _ => !(s == 200)
  | FetchResult.exn _ => true

/-- The process environment seen by `test_extract`: the HTTP oracle, the
filesystem, the module-global `filepath`, and the log configuration. -/
structure Env where
  fetch : Fetch
  files : String → Option String
  filepath : String
  cfg : Config

/-- `test_extract`.  Note the source tests the scheme of its `path` argument
but then fetches / checks / reads the module-global `filepath`.  `.error`
models an uncaught exception from `requests.get`; `.ok none` models the
bare `return` on a missing local file. -/
def test_extract (env : Env) (fuel : Nat) (path : String) (compress : Bool) :
    Except String (Option String) :=
  if pyStartsWith path "http" && containsSub path.data "://".data then
    match env.fetch env.filepath with
    | FetchResult.exn m => Except.error m
    | FetchResult.ok _ text _ _ =>
      let r := test_resolve_css env.fetch env.cfg fuel text
      Except.ok (some (if compress then test_minify_css r.1 else r.1))
  else
    match env.files env.filepath with
    | none => Except.ok none
    | some css =>
      let r := test_resolve_css env.fetch env.cfg fuel css
      Except.ok (some (if compress then test_minify_css r.1 else r.1))

/-!
Concrete oracles used by the claim theorems.
-/

/-- A single-quote character, as a string. -/
def sglQuote : String := String.mk [Char.ofNat 39]

/-- An oracle answering 200 with body `x` to every request. -/
def c1Fetch : Fetch := fun _ => FetchResult.ok 200 "x" [] none

/-- An oracle answering 200 to every request. -/
def c2Fetch : Fetch := fun _ => FetchResult.ok 200 "" [1] (some "t")

/-- An oracle whose answer for the empty URL (the module default of the
global `filepath`) differs from its answer for `http://h/a.css`. -/
def c3Env : Env :=
  { fetch := fun u =>
      if u = "" then FetchResult.ok 200 "p q" [] none
      else if u = "http://h/a.css" then FetchResult.ok 200 "r s" [] none
      else FetchResult.exn "e"
    files := fun _ => none
    filepath := ""
    cfg := ⟨1, 1⟩ }

/-- An environment whose filesystem holds the file named by the `path`
argument but not the one named by the global `filepath`. -/
def c3EnvLocal : Env :=
  { fetch := fun _ => FetchResult.exn "e"
    files := fun u => if u = "g.css" then some "k" else none
    filepath := "f.css"
    cfg := ⟨1, 1⟩ }

/-- An oracle serving a stylesheet body that contains a backslash escape. -/
def c4Fetch : Fetch := fun u =>
  if u = "http://x/a.css" then FetchResult.ok 200 "q \\t r" [] none
  else FetchResult.exn "e"

/-- An oracle serving one PNG byte `0xFF` with content type `image/png`. -/
def c5Fetch : Fetch := fun u =>
  if u = "http://x/i.png" then FetchResult.ok 200 "" [255] (some "image/png")
  else FetchResult.exn "e"

/-- An oracle answering 404 to every request. -/
def c6Fetch : Fetch := fun _ => FetchResult.ok 404 "" [] none

/-- An oracle raising on every request. -/
def c10Fetch : Fetch := fun _ => FetchResult.exn "e"

/-- C1: the claim says a root-relative import or asset URL is skipped with no
HTTP request under every log configuration.  The code only skips when
`log_level` is 1 or 2: with logging disabled (`log_level = 0`) the Import
Resolver passes `/local/file.css` to `requests.get` (the request trace is
non-empty) and, the fetch returning 200 here, even replaces the `@import`
statement; with `log_level = 1` the same input is skipped untouched with no
request.  This evaluates the code at the failing input of the code_bug. -/
theorem c1_root_relative_fetched_when_logging_disabled :
    test_import_resolver c1Fetch ⟨1, 0⟩ 1 ["/local/file.css"]
        "@import url(/local/file.css); p"
      = ("x p", ["/local/file.css"]) ∧
    test_import_resolver c1Fetch ⟨1, 1⟩ 1 ["/local/file.css"]
        "@import url(/local/file.css); p"
      = ("@import url(/local/file.css); p", []) := by
  constructor <;> rfl

/-- C2 counterexample: `http://e.com/data:x.png` neither begins with `data:`
nor with `/`, yet the Asset Resolver issues no request for it and leaves the
document unchanged (the code tests `'data:' in url`, a substring test), while
the claim says every such URL is fetched with an HTTP GET. -/
theorem c2_counterexample_substring_not_prefix :
    pyStartsWith "http://e.com/data:x.png" "data:" = false ∧
    pyStartsWith "http://e.com/data:x.png" "/" = false ∧
    test_asset_resolver c2Fetch ⟨1, 1⟩ ["http://e.com/data:x.png"] "p" = ("p", []) := by
  refine ⟨rfl, rfl, rfl⟩

/-- The asset resolver on a one-element URL list is its loop body followed by
the empty loop. -/
theorem asset_resolver_one (f : Fetch) (cfg : Config) (url css : String) :
    test_asset_resolver f cfg [url] css
      = ((assetStep f cfg css url).1, (assetStep f cfg css url).2 ++ []) := by
  simp [test_asset_resolver]

/-- When a URL passes both skip guards, the asset resolver's loop body passes
it to `requests.get`, whatever the response. -/
theorem assetStep_requests (f : Fetch) (cfg : Config) (css url : String)
    (hd : containsSub url.data "data:".data = false)
    (hs : pyStartsWith url "/" = false) :
    (assetStep f cfg css url).2 = [url] := by
  unfold assetStep
  simp only [hd, hs, Bool.false_eq_true, if_false, Bool.false_and]
  split <;> rfl

/-- C2 amended: among asset URLs not beginning with `/`, the Asset Resolver
skips (no fetch, document unchanged) exactly those URLs that contain the
substring `data:`; every other such URL is passed to `requests.get`. -/
theorem c2_amended_data_substring_skip (f : Fetch) (cfg : Config) (url css : String)
    (hs : pyStartsWith url "/" = false) :
    ((test_asset_resolver f cfg [url] css).2 = [] ↔
      containsSub url.data "data:".data = true) ∧
    (containsSub url.data "data:".data = true →
      (test_asset_resolver f cfg [url] css).1 = css) := by
  by_cases hd : containsSub url.data "data:".data = true
  · simp [test_asset_resolver, assetStep, hd]
  · have hd' : containsSub url.data "data:".data = false := Bool.eq_false_iff.mpr hd
    have hres : (test_asset_resolver f cfg [url] css).2 = [url] := by
      rw [asset_resolver_one, assetStep_requests f cfg css url hd' hs]
      simp
    constructor
    · rw [hres]
      simp [hd]
    · intro h
      exact absurd h hd

/-- C2 amended, witness: a concrete non-root-relative URL without `data:` is
passed to `requests.get` (equivalently, its request trace is non-empty). -/
theorem c2_amended_data_substring_skip_witness :
    pyStartsWith "http://q.com/a.png" "/" = false ∧
    (((test_asset_resolver c10Fetch ⟨1, 1⟩ ["http://q.com/a.png"] "c").2 = [] ↔
        containsSub "http://q.com/a.png".data "data:".data = true) ∧
      (containsSub "http://q.com/a.png".data "data:".data = true →
        (test_asset_resolver c10Fetch ⟨1, 1⟩ ["http://q.com/a.png"] "c").1 = "c")) :=
  ⟨by decide, c2_amended_data_substring_skip c10Fetch ⟨1, 1⟩ "http://q.com/a.png" "c"
    (by decide)⟩

/-- C3: the claim says `extract` loads the document designated by its `path`
argument.  The code tests `path`'s scheme but then fetches (resp. checks and
reads) the module-global `filepath`.  With the global at its module default
`''` and `path = http://h/a.css`, the body served for `path` (`r s`) is
ignored and the body served for the global `''` (`p q`) is returned; with a
local `path = g.css` that exists on disk while the global `f.css` does not,
`extract` returns nothing even though the file at `path` is present.  This
evaluates the code at the failing inputs of the code_bug. -/
theorem c3_extract_uses_global_filepath_not_path :
    c3Env.fetch "http://h/a.css" = FetchResult.ok 200 "r s" [] none ∧
    test_extract c3Env 1 "http://h/a.css" false = Except.ok (some "p q") ∧
    ("p q" : String) ≠ "r s" ∧
    c3EnvLocal.files "g.css" = some "k" ∧
    test_extract c3EnvLocal 1 "g.css" false = Except.ok none := by
  refine ⟨rfl, rfl, by decide, rfl, rfl⟩

/-- C4: the claim says a 200 import is replaced by the fetched,
recursively resolved body.  The code passes that body to `re.sub` as a
replacement template, so its backslash sequences are interpreted: a fetched
stylesheet `q \t r` (backslash + letter t) is inserted as `q <TAB> r` — not
the fetched body.  (A body containing `\1` even raises `re.error`, which the
`except` block swallows, leaving the `@import` in place.)  This evaluates the
code at the failing input of the code_bug. -/
theorem c4_resub_treats_body_as_template :
    test_import_resolver c4Fetch ⟨1, 1⟩ 1 ["http://x/a.css"]
        "@import url(http://x/a.css); p"
      = ("q \t r p", ["http://x/a.css"]) ∧
    ("q \t r p" : String) ≠ "q \\t r p" := by
  refine ⟨rfl, by decide⟩

/-- C5: on a 200 response with body bytes B and a present `content-type`
header C, the Asset Resolver replaces every literal occurrence of the URL in
the document (plain global substring replacement, not anchored to `url(...)`)
with `data:` ++ C ++ `;base64,` ++ base64(B). -/
theorem c5_asset_200_replaces_every_occurrence (f : Fetch) (cfg : Config)
    (url css t : String) (content : List Nat) (ct : String)
    (hd : containsSub url.data "data:".data = false)
    (hs : pyStartsWith url "/" = false)
    (hf : f url = FetchResult.ok 200 t content (some ct)) :
    (test_asset_resolver f cfg [url] css).1
      = pyReplace css url ("data:" ++ ct ++ ";base64," ++ String.mk (b64encodeBytes content)) := by
  rw [asset_resolver_one]
  unfold assetStep
  simp only [hd, hs, Bool.false_eq_true, if_false, Bool.false_and, hf]
  rfl

/-- C5 witness at a concrete oracle: the PNG byte `0xFF` becomes the data URI
payload `/w==` and both occurrences of the URL are replaced. -/
theorem c5_asset_200_replaces_every_occurrence_witness :
    (containsSub "http://x/i.png".data "data:".data = false ∧
      pyStartsWith "http://x/i.png" "/" = false ∧
      c5Fetch "http://x/i.png" = FetchResult.ok 200 "" [255] (some "image/png")) ∧
    (test_asset_resolver c5Fetch ⟨1, 1⟩ ["http://x/i.png"]
        "a url(http://x/i.png) b http://x/i.png").1
      = pyReplace "a url(http://x/i.png) b http://x/i.png" "http://x/i.png"
          ("data:" ++ "image/png" ++ ";base64," ++ String.mk (b64encodeBytes [255])) :=
  ⟨⟨by decide, by decide, rfl⟩,
    c5_asset_200_replaces_every_occurrence c5Fetch ⟨1, 1⟩ "http://x/i.png"
      "a url(http://x/i.png) b http://x/i.png" "" [255] "image/png"
      (by decide) (by decide) rfl⟩

/-- When the fetch of a URL fails, the import resolver's loop body leaves the
text unchanged. -/
theorem importStepG_fails (f : Fetch) (cfg : Config)
    (recur : String → String × List String) (css u : String)
    (hf : fetchFails f u = true) :
    (importStepG f cfg recur css u).1 = css := by
  unfold importStepG
  split
  · rfl
  · unfold fetchFails at hf
    split
    · rename_i s t co ct heq
      rw [heq] at hf
      simp at hf
    · rfl
    · rfl

/-- When the fetch of a URL fails, the asset resolver's loop body leaves the
text unchanged. -/
theorem assetStep_fails (f : Fetch) (cfg : Config) (css u : String)
    (hf : fetchFails f u = true) :
    (assetStep f cfg css u).1 = css := by
  unfold assetStep
  split
  · rfl
  · split
    · rfl
    · unfold fetchFails at hf
      split
      · rename_i s t co ct heq
        rw [heq] at hf
        simp at hf
      · rfl
      · rfl

/-- C6: a URL whose fetch returns a non-200 status or raises leaves the
document text unchanged in both resolvers, and processing of the remaining
URLs continues exactly as if the failing URL were absent. -/
theorem c6_failed_fetch_is_skipped_and_processing_continues (f : Fetch)
    (cfg : Config) (fuel : Nat) (u : String) (rest : List String) (css : String)
    (hf : fetchFails f u = true) :
    (test_import_resolver f cfg fuel (u :: rest) css).1
      = (test_import_resolver f cfg fuel rest css).1 ∧
    (test_asset_resolver f cfg (u :: rest) css).1
      = (test_asset_resolver f cfg rest css).1 := by
  constructor
  · show (importResolverG f cfg (test_resolve_css f cfg fuel) (u :: rest) css).1
      = (importResolverG f cfg (test_resolve_css f cfg fuel) rest css).1
    rw [importResolverG]
    rw [importStepG_fails f cfg (test_resolve_css f cfg fuel) css u hf]
  · rw [test_asset_resolver]
    rw [assetStep_fails f cfg css u hf]

/-- C6 witness at a 404 oracle: the failing head URL does not change the
result computed for the remaining URL. -/
theorem c6_failed_fetch_is_skipped_witness :
    fetchFails c6Fetch "http://x/m.css" = true ∧
    ((test_import_resolver c6Fetch ⟨1, 1⟩ 1 ["http://x/m.css", "http://x/n.css"] "k").1
        = (test_import_resolver c6Fetch ⟨1, 1⟩ 1 ["http://x/n.css"] "k").1 ∧
      (test_asset_resolver c6Fetch ⟨1, 1⟩ ["http://x/m.css", "http://x/n.css"] "k").1
        = (test_asset_resolver c6Fetch ⟨1, 1⟩ ["http://x/n.css"] "k").1) :=
  ⟨by decide,
    c6_failed_fetch_is_skipped_and_processing_continues c6Fetch ⟨1, 1⟩ 1
      "http://x/m.css" ["http://x/n.css"] "k" (by decide)⟩

/-- C7: `test_resolve_css` is the sequential composition: import extraction on
the input, import resolution, then asset extraction on the already
import-expanded text, then asset resolution (the request trace concatenates
accordingly). -/
theorem c7_resolve_css_is_the_pipeline_composition (f : Fetch) (cfg : Config)
    (fuel : Nat) (css : String) :
    test_resolve_css f cfg (fuel + 1) css
      = ((test_asset_resolver f cfg
            (test_asset_extractor
              (test_import_resolver f cfg fuel (test_import_extractor css) css).1)
            (test_import_resolver f cfg fuel (test_import_extractor css) css).1).1,
          (test_import_resolver f cfg fuel (test_import_extractor css) css).2 ++
          (test_asset_resolver f cfg
            (test_asset_extractor
              (test_import_resolver f cfg fuel (test_import_extractor css) css).1)
            (test_import_resolver f cfg fuel (test_import_extractor css) css).1).2) := by
  rfl

/-- C8: the Import Extractor returns the `@import` URLs in order of first
appearance (first conjunct: the claim's concrete input, with a `url("...")`
form and a bare single-quoted form) and preserves duplicates (second
conjunct). -/
theorem c8_import_extractor_order_and_duplicates :
    test_import_extractor
        ("@import url(\"http://x/a.css\"); @import " ++ sglQuote ++ "http://x/b.css"
          ++ sglQuote ++ ";")
      = ["http://x/a.css", "http://x/b.css"] ∧
    test_import_extractor "@import \"u\";@import \"u\";" = ["u", "u"] := by
  refine ⟨rfl, rfl⟩

/-- C10: each resolver applied to an empty URL list returns the text
unchanged with no requests, and `test_resolve_css` returns unchanged any text
in which both extractors find no references. -/
theorem c10_empty_reference_lists_are_identity (f : Fetch) (cfg : Config)
    (fuel : Nat) (css : String) :
    test_import_resolver f cfg fuel [] css = (css, []) ∧
    test_asset_resolver f cfg [] css = (css, []) ∧
    ((test_import_extractor css = [] ∧ test_asset_extractor css = []) →
      (test_resolve_css f cfg fuel css).1 = css) := by
  refine ⟨rfl, rfl, ?_⟩
  rintro ⟨h1, h2⟩
  match fuel with
  | 0 => rfl
  | fuel + 1 =>
    rw [test_resolve_css]
    simp only [h1]
    show (test_asset_resolver f cfg
      (test_asset_extractor (importResolverG f cfg (test_resolve_css f cfg fuel) [] css).1)
      (importResolverG f cfg (test_resolve_css f cfg fuel) [] css).1).1 = css
    rw [importResolverG]
    simp only [h2]
    rfl

/-- C10 witness: a concrete reference-free string passes through
`test_resolve_css` unchanged. -/
theorem c10_empty_reference_lists_are_identity_witness :
    (test_import_extractor "p q" = [] ∧ test_asset_extractor "p q" = []) ∧
    (test_resolve_css c10Fetch ⟨1, 1⟩ 1 "p q").1 = "p q" :=
  ⟨by decide,
    (c10_empty_reference_lists_are_identity c10Fetch ⟨1, 1⟩ 1 "p q").2.2 (by decide)⟩

/-!
Helper development for the minifier: the comment pass is the identity on
comment-free text, and the collapse-then-strip normalisation is idempotent.
-/

/-- The list is empty or starts with a non-whitespace character. -/
def headNotSpace : List Char → Bool
  | [] => true
  | c :: _ => !pySpace c

/-- Every whitespace character in the list is a single space not followed by
whitespace (the shape of the collapse pass's output). -/
def normSpaced : List Char → Bool
  | [] => true
  | [c] => !pySpace c || c == ' '
  | c :: d :: rest => (!pySpace c || (c == ' ' && !pySpace d)) && normSpaced (d :: rest)

/-- The list is empty or does not end with a whitespace character. -/
def noTrail : List Char → Bool
  | [] => true
  | [c] => !pySpace c
  | _ :: d :: rest => noTrail (d :: rest)

/-- Cons characterisation of `normSpaced`. -/
theorem normSpaced_cons (c : Char) (l : List Char) :
    normSpaced (c :: l)
      = ((!pySpace c || (c == ' ' && headNotSpace l)) && normSpaced l) := by
  cases l with
  | nil => simp [normSpaced, headNotSpace]
  | cons d rest => simp [normSpaced, headNotSpace]

/-- Cons characterisation of `headNotSpace`. -/
theorem headNotSpace_cons (c : Char) (l : List Char) :
    headNotSpace (c :: l) = !pySpace c := rfl

/-- `removeComments` is the identity on text with no `/*`. -/
theorem removeComments_of_no_open (fuel : Nat) :
    ∀ l : List Char, containsSub l ['/', '*'] = false → removeComments fuel l = l := by
  induction fuel with
  | zero => intro l _; rfl
  | succ fuel ih =>
    intro l h
    match l with
    | [] => rfl
    | [c] => rfl
    | c :: d :: rest =>
      rw [containsSub] at h
      simp only [Bool.or_eq_false_iff] at h
      obtain ⟨h1, h2⟩ := h
      have hcd : ¬(c = '/' ∧ d = '*') := by
        rintro ⟨rfl, rfl⟩
        simp [List.isPrefixOf] at h1
      rw [removeComments, if_neg hcd, ih (d :: rest) h2]

/-- The collapse pass starting in whitespace state yields output with a
non-whitespace head. -/
theorem collapseAux_true_head (l : List Char) :
    headNotSpace (collapseAux true l) = true := by
  induction l with
  | nil => rfl
  | cons c rest ih =>
    by_cases h : pySpace c = true
    · simp [collapseAux, h, ih]
    · simp only [Bool.not_eq_true] at h
      simp [collapseAux, h, headNotSpace]

/-- The collapse pass always yields `normSpaced` output. -/
theorem collapseAux_normSpaced (l : List Char) :
    ∀ b, normSpaced (collapseAux b l) = true := by
  induction l with
  | nil => intro b; rfl
  | cons c rest ih =>
    intro b
    by_cases h : pySpace c = true
    · cases b with
      | true => simp [collapseAux, h, ih]
      | false =>
        simp only [collapseAux, h, if_true, Bool.false_eq_true, if_false]
        rw [normSpaced_cons]
        simp [collapseAux_true_head, ih, pySpace]
    · simp only [Bool.not_eq_true] at h
      simp only [collapseAux, h, Bool.false_eq_true, if_false]
      rw [normSpaced_cons]
      simp [h, ih]

/-- `dropWhile` of whitespace preserves `normSpaced`. -/
theorem dropWhile_normSpaced (l : List Char) (h : normSpaced l = true) :
    normSpaced (l.dropWhile pySpace) = true := by
  induction l with
  | nil => exact h
  | cons c rest ih =>
    rw [normSpaced_cons] at h
    simp only [Bool.and_eq_true] at h
    by_cases hc : pySpace c = true
    · simpa [List.dropWhile, hc] using ih h.2
    · simp only [Bool.not_eq_true] at hc
      simpa [List.dropWhile, hc, normSpaced_cons] using h

/-- `dropWhile` of whitespace yields a non-whitespace head. -/
theorem dropWhile_headNotSpace (l : List Char) :
    headNotSpace (l.dropWhile pySpace) = true := by
  induction l with
  | nil => rfl
  | cons c rest ih =>
    by_cases hc : pySpace c = true
    · simpa [List.dropWhile, hc] using ih
    · simp only [Bool.not_eq_true] at hc
      simp [List.dropWhile, hc, headNotSpace]

/-- `dropWhile` of whitespace is the identity when the head is not
whitespace. -/
theorem dropWhile_of_headNotSpace (l : List Char) (h : headNotSpace l = true) :
    l.dropWhile pySpace = l := by
  cases l with
  | nil => rfl
  | cons c rest =>
    unfold headNotSpace at h
    simp only [Bool.not_eq_true'] at h
    simp [List.dropWhile, h]

/-- The right strip of a cons is empty or keeps the same head. -/
theorem pyStripRight_shape (c : Char) (rest : List Char) :
    pyStripRight (c :: rest) = [] ∨ ∃ r, pyStripRight (c :: rest) = c :: r := by
  cases h : pyStripRight rest with
  | nil =>
    by_cases hc : pySpace c = true
    · left; simp [pyStripRight, h, hc]
    · right; exact ⟨[], by simp only [Bool.not_eq_true] at hc; simp [pyStripRight, h, hc]⟩
  | cons d rs =>
    right; exact ⟨d :: rs, by simp [pyStripRight, h]⟩

/-- The right strip never ends in whitespace. -/
theorem pyStripRight_noTrail (l : List Char) : noTrail (pyStripRight l) = true := by
  induction l with
  | nil => rfl
  | cons c rest ih =>
    cases h : pyStripRight rest with
    | nil =>
      by_cases hc : pySpace c = true
      · simp [pyStripRight, h, hc, noTrail]
      · simp only [Bool.not_eq_true] at hc
        simp [pyStripRight, h, hc, noTrail]
    | cons d rs =>
      rw [h] at ih
      simp [pyStripRight, h, noTrail, ih]

/-- The right strip preserves `normSpaced`. -/
theorem pyStripRight_normSpaced (l : List Char) (h : normSpaced l = true) :
    normSpaced (pyStripRight l) = true := by
  induction l with
  | nil => exact h
  | cons c rest ih =>
    rw [normSpaced_cons] at h
    simp only [Bool.and_eq_true, Bool.or_eq_true, Bool.not_eq_true', beq_iff_eq] at h
    have ih' := ih h.2
    cases hr : pyStripRight rest with
    | nil =>
      by_cases hc : pySpace c = true
      · simp [pyStripRight, hr, hc, normSpaced]
      · simp only [Bool.not_eq_true] at hc
        simp [pyStripRight, hr, hc, normSpaced]
    | cons d rs =>
      rw [hr] at ih'
      have hout : pyStripRight (c :: rest) = c :: d :: rs := by rw [pyStripRight, hr]
      rw [hout, normSpaced_cons]
      simp only [ih', Bool.and_true]
      rcases h.1 with h1 | ⟨h1, h2⟩
      · simp [h1]
      · cases rest with
        | nil => simp [pyStripRight] at hr
        | cons e rest2 =>
          rcases pyStripRight_shape e rest2 with hsh | ⟨r, hsh⟩
          · rw [hsh] at hr; cases hr
          · rw [hsh] at hr
            injection hr with hde hrs
            have he : pySpace e = false := by simpa [headNotSpace_cons] using h2
            subst hde
            simp [h1, he, headNotSpace_cons]

/-- The right strip is empty or keeps the head, hence preserves a
non-whitespace head. -/
theorem pyStripRight_headNotSpace (l : List Char) (h : headNotSpace l = true) :
    headNotSpace (pyStripRight l) = true := by
  cases l with
  | nil => rfl
  | cons c rest =>
    rcases pyStripRight_shape c rest with hsh | ⟨r, hsh⟩
    · simp [hsh, headNotSpace]
    · rw [hsh]
      simpa [headNotSpace] using h

/-- The right strip is the identity on lists with no trailing whitespace. -/
theorem pyStripRight_of_noTrail (l : List Char) (h : noTrail l = true) :
    pyStripRight l = l := by
  induction l with
  | nil => rfl
  | cons c rest ih =>
    cases rest with
    | nil =>
      have h' : pySpace c = false := by simpa [noTrail] using h
      simp [pyStripRight, h']
    | cons d rs =>
      have h' : noTrail (d :: rs) = true := h
      have hout := ih h'
      rw [pyStripRight, hout]

/-- The collapse pass is the identity on `normSpaced` lists (and on ones with
a non-whitespace head, in whitespace state). -/
theorem collapseAux_of_normSpaced (l : List Char) (h : normSpaced l = true) :
    collapseAux false l = l ∧ (headNotSpace l = true → collapseAux true l = l) := by
  induction l with
  | nil => exact ⟨rfl, fun _ => rfl⟩
  | cons c rest ih =>
    rw [normSpaced_cons] at h
    simp only [Bool.and_eq_true, Bool.or_eq_true, Bool.not_eq_true', beq_iff_eq] at h
    have ih' := ih h.2
    by_cases hc : pySpace c = true
    · have h1 : c = ' ' ∧ headNotSpace rest = true := by
        rcases h.1 with h1 | h1
        · rw [hc] at h1; simp at h1
        · exact h1
      obtain ⟨rfl, hhd⟩ := h1
      constructor
      · simp [collapseAux, hc, ih'.2 hhd]
      · intro hh
        rw [headNotSpace_cons] at hh
        simp [hc] at hh
    · simp only [Bool.not_eq_true] at hc
      refine ⟨?_, fun _ => ?_⟩ <;>
        simp [collapseAux, hc, ih'.1]

/-- Collapsing then stripping is idempotent. -/
theorem collapse_strip_idem (y : List Char) :
    pyStrip (collapseAux false (pyStrip (collapseAux false y)))
      = pyStrip (collapseAux false y) := by
  have hm : normSpaced (collapseAux false y) = true := collapseAux_normSpaced y false
  have hs1n : normSpaced ((collapseAux false y).dropWhile pySpace) = true :=
    dropWhile_normSpaced _ hm
  have hs1h : headNotSpace ((collapseAux false y).dropWhile pySpace) = true :=
    dropWhile_headNotSpace _
  have hsn : normSpaced (pyStrip (collapseAux false y)) = true :=
    pyStripRight_normSpaced _ hs1n
  have hsh : headNotSpace (pyStrip (collapseAux false y)) = true :=
    pyStripRight_headNotSpace _ hs1h
  have hst : noTrail (pyStrip (collapseAux false y)) = true :=
    pyStripRight_noTrail _
  rw [(collapseAux_of_normSpaced _ hsn).1]
  show pyStripRight (List.dropWhile pySpace (pyStrip (collapseAux false y)))
    = pyStrip (collapseAux false y)
  rw [dropWhile_of_headNotSpace _ hsh]
  exact pyStripRight_of_noTrail _ hst

/-- C9 counterexample: the minifier is not idempotent.  On `//*x*/*abc*/`,
removing the comment `/*x*/` glues the leading `/` to the following `*`,
so the first pass produces `/*abc*/`, which the second pass removes
entirely. -/
theorem c9_counterexample_not_idempotent :
    test_minify_css (test_minify_css "//*x*/*abc*/")
      ≠ test_minify_css "//*x*/*abc*/" := by
  decide

/-- C9 amended: the minifier is idempotent on every input whose minified
output contains no comment opener `/*` (comment removal can splice text into
a new `/*`, and only then can a second pass differ). -/
theorem c9_amended_idempotent_without_new_opener (x : String)
    (h : containsSub (test_minify_css x).data "/*".data = false) :
    test_minify_css (test_minify_css x) = test_minify_css x := by
  have h' : containsSub (test_minify_css x).data ['/', '*'] = false := h
  show String.mk (pyStrip (collapseAux false
      (removeComments (test_minify_css x).data.length (test_minify_css x).data)))
    = test_minify_css x
  rw [removeComments_of_no_open _ _ h']
  show String.mk (pyStrip (collapseAux false
      (pyStrip (collapseAux false (removeComments x.data.length x.data)))))
    = String.mk (pyStrip (collapseAux false (removeComments x.data.length x.data)))
  rw [collapse_strip_idem]

/-- C9 amended, witness: whitespace-only reduction is idempotent on a
concrete comment-free input. -/
theorem c9_amended_idempotent_witness :
    containsSub (test_minify_css "a  b").data "/*".data = false ∧
    test_minify_css (test_minify_css "a  b") = test_minify_css "a  b" :=
  ⟨by decide, c9_amended_idempotent_without_new_opener "a  b" (by decide)⟩
